import Mathlib

/-!
Shallow embedding of `src/frontend/login_Api/src/AdminDashboard.jsx`
(the single source file of the TodoApp repository) and proofs of the
behavioural claims about it.

The component is a React single-page admin panel.  Its logic falls into
three parts, each embedded below:

* the static role-hierarchy tables (`availableRoles`, `ROLE_LEVELS`) and
  the pure boolean expressions computed per roster row for the
  role-change dropdown, its options, and the delete button;
* the view state (`users`, `loading`, `error`, `message`,
  `viewingUserId`, `viewingUserEmail`) and the three async network
  handlers (`fetchUsers`, `handleChangeRole`, `handleDeleteUser`), each
  modelled as a state-transition function parameterised by the outcome
  of the network request;
* the mount-time session gate (the `useEffect` body) and the top-level
  render-mode selection.

JavaScript peculiarities carried through faithfully:

* `ROLE_LEVELS[r]` for a key `r` outside the table yields `undefined`;
  any `<`, `<=`, `>` comparison in which `undefined` participates is a
  NaN comparison and evaluates to `false`.  We model levels as
  `Option Nat` and comparisons as `jsLt` / `jsLe` / `jsGt`, which are
  `false` unless both sides are `some`.
* `x || y` on strings falls through to `y` exactly when `x` is the
  empty string (or absent); modelled by `jsOrString`.
* a string used as a condition (`authToken`, `currentUserRole`,
  `viewingUserId`) is truthy iff non-empty / non-null.
-/

/-- The `availableRoles` array of the component. -/
def availableRoles : List String := ["user", "moderator", "admin", "superAdmin", "manager"]

/-- The `ROLE_LEVELS` object: lookup of a key absent from the object is
`undefined`, here `none`. -/
def ROLE_LEVELS (r : String) : Option Nat :=
  if r = "user" then some 0
  else if r = "moderator" then some 1
  else if r = "admin" then some 2
  else if r = "superAdmin" then some 3
  else if r = "manager" then some 4
  else none

/-- JavaScript `<` on two values that are numbers or `undefined`:
`false` whenever either side is `undefined`. -/
def jsLt : Option Nat → Option Nat → Bool
  | some a, some b => a < b
  | _, _ => false

/-- JavaScript `<=` on two values that are numbers or `undefined`. -/
def jsLe : Option Nat → Option Nat → Bool
  | some a, some b => a ≤ b
  | _, _ => false

/-- JavaScript `>` on two values that are numbers or `undefined`. -/
def jsGt : Option Nat → Option Nat → Bool
  | some a, some b => b < a
  | _, _ => false

/-- The per-row `isDropdownDisabled` expression:
`loading || isCurrentUser || (ROLE_LEVELS[currentUserRole] < ROLE_LEVELS[user.role])`. -/
def isDropdownDisabled (loading isCurrentUser : Bool)
    (currentUserRole targetRole : String) : Bool :=
  loading || isCurrentUser ||
    jsLt (ROLE_LEVELS currentUserRole) (ROLE_LEVELS targetRole)

/-- The `disabled` expression of the delete button:
`loading || isCurrentUser ||
 (ROLE_LEVELS[currentUserRole] <= ROLE_LEVELS[user.role] && currentUserRole !== 'superAdmin') ||
 (user.role === 'superAdmin' && currentUserRole !== 'superAdmin')`. -/
def isDeleteDisabled (loading isCurrentUser : Bool)
    (currentUserRole targetRole : String) : Bool :=
  loading || isCurrentUser ||
    (jsLe (ROLE_LEVELS currentUserRole) (ROLE_LEVELS targetRole)
      && (currentUserRole != "superAdmin")) ||
    ((targetRole == "superAdmin") && (currentUserRole != "superAdmin"))

/-- The `disabled` expression of each `<option>` inside the role-change
select: `ROLE_LEVELS[role] > ROLE_LEVELS[currentUserRole] ||
(user.role === 'superAdmin' && currentUserRole !== 'superAdmin')`. -/
def isOptionDisabled (candidateRole currentUserRole targetRole : String) : Bool :=
  jsGt (ROLE_LEVELS candidateRole) (ROLE_LEVELS currentUserRole) ||
    ((targetRole == "superAdmin") && (currentUserRole != "superAdmin"))

/-- A user record as held in the roster (fields read by the component:
`_id`, `name`, `email`, `role`). -/
structure User where
  _id : String
  name : String
  email : String
  role : String
deriving Repr, DecidableEq

/-- The component's view state: the six `useState` hooks. -/
structure DashState where
  users : List User
  loading : Bool
  error : String
  message : String
  viewingUserId : Option String
  viewingUserEmail : Option String
deriving Repr, DecidableEq

/-- The initial state of a freshly mounted component. -/
def initialState : DashState :=
  { users := [], loading := false, error := "", message := ""
    viewingUserId := none, viewingUserEmail := none }

/-- JavaScript `x || y` where `x` is a string field that may be absent
(`none`) or empty (falsy): falls through to the default exactly in
those two cases. -/
def jsOrString (x : Option String) (dflt : String) : String :=
  match x with
  | none => dflt
  | some s => if s = "" then dflt else s

/-- Outcome of the `fetch` in `fetchUsers`: an OK response whose JSON
may or may not carry a `users` array, a non-2xx response whose JSON may
or may not carry a `message`, or a thrown transport error. -/
inductive FetchUsersResult where
  | ok (users : Option (List User))
  | httpError (msg : Option String)
  | transportError
deriving Repr, DecidableEq

/-- Outcome of the `fetch` in `handleChangeRole` / `handleDeleteUser`:
an OK or non-2xx response whose JSON may carry a `message`, or a thrown
transport error. -/
inductive ApiResult where
  | ok (msg : Option String)
  | httpError (msg : Option String)
  | transportError
deriving Repr, DecidableEq

/-- The common prologue of all three handlers:
`setLoading(true); setError(''); setMessage('')` (in `fetchUsers` the
order is `setLoading`, `setError`, `setMessage`; in the other two it is
`setLoading`, `setMessage`, `setError`; the resulting state is the
same). -/
def requestBegin (s : DashState) : DashState :=
  { s with loading := true, error := "", message := "" }

/-- `fetchUsers` as a state transition, given the network outcome:
on OK replaces the roster with `data.users || []`; on HTTP failure sets
the server message or the fallback; on a thrown error sets the fixed
network-error message; always ends with `loading` cleared (the
`finally` block). -/
def fetchUsers (s : DashState) (r : FetchUsersResult) : DashState :=
  let s1 := requestBegin s
  match r with
  | .ok us => { s1 with users := us.getD [], loading := false }
  | .httpError m =>
      { s1 with
        error := jsOrString m "Failed to fetch users. Ensure you have permission."
        loading := false }
  | .transportError =>
      { s1 with
        error := "Network error or server is unreachable while fetching users. Ensure your backend is running."
        loading := false }

/-- `handleChangeRole(userId, email, newRole)` as a state transition,
given the network outcome: on OK sets the success message
(`data.message || generated default`) and maps the roster, replacing
the `role` field of the entry whose `_id` matches `userId`; on failure
sets the error; always clears `loading`. -/
def handleChangeRole (userId email newRole : String) (s : DashState)
    (r : ApiResult) : DashState :=
  let s1 := requestBegin s
  match r with
  | .ok m =>
      { s1 with
        message := jsOrString m ("Role for " ++ email ++ " updated to " ++ newRole ++ ".")
        users := s.users.map (fun u =>
          if u._id = userId then { u with role := newRole } else u)
        loading := false }
  | .httpError m =>
      { s1 with
        error := jsOrString m "Failed to change role. Check your permissions."
        loading := false }
  | .transportError =>
      { s1 with
        error := "Network error or server is unreachable while changing role."
        loading := false }

/-- `handleDeleteUser(userId, userEmail)` as a state transition.  The
`window.confirm` prompt is the `confirmed` input: declining returns
immediately, sending no request (second component `false`) and leaving
the state untouched.  On confirmation the request is sent (second
component `true`); on OK the success message is set and the roster
filtered to the entries whose `_id` differs from `userId`; on failure
the error is set; `loading` always ends cleared. -/
def handleDeleteUser (confirmed : Bool) (userId userEmail : String)
    (s : DashState) (r : ApiResult) : DashState × Bool :=
  if confirmed then
    let s1 := requestBegin s
    match r with
    | .ok m =>
        ({ s1 with
          message := jsOrString m ("User " ++ userEmail ++ " deleted successfully.")
          users := s.users.filter (fun u => u._id != userId)
          loading := false }, true)
    | .httpError m =>
        ({ s1 with
          error := jsOrString m "Failed to delete user. Check your permissions."
          loading := false }, true)
    | .transportError =>
        ({ s1 with
          error := "Network error or server is unreachable while deleting user."
          loading := false }, true)
  else (s, false)

/-- What the mount-time `useEffect` does, as a function of the two
props (strings; JavaScript truthiness is non-emptiness). -/
inductive MountAction where
  | fetchRoster
  | setError (msg : String)
  | noAction
deriving Repr, DecidableEq

/-- The body of the `useEffect` run on mount and whenever `authToken`
or `currentUserRole` changes: fetch the roster when the token is
present and the role is `admin`, `superAdmin` or `manager`; set the
insufficient-privileges error when the token is present and the role is
truthy but none of the three; otherwise do nothing. -/
def mountEffect (authToken currentUserRole : String) : MountAction :=
  if authToken ≠ "" ∧ (currentUserRole = "admin" ∨ currentUserRole = "superAdmin"
      ∨ currentUserRole = "manager") then
    .fetchRoster
  else if authToken ≠ "" ∧ currentUserRole ≠ "" ∧ currentUserRole ≠ "admin"
      ∧ currentUserRole ≠ "superAdmin" ∧ currentUserRole ≠ "manager" then
    .setError "You do not have sufficient administrative privileges to view this dashboard."
  else .noAction

/-- The four mutually exclusive top-level render branches. -/
inductive RenderMode where
  | loginPrompt
  | accessDenied
  | todoView
  | dashboard
deriving Repr, DecidableEq

/-- The top-level render selection: no token → login prompt; token but
role outside {admin, superAdmin, manager} → access denied; a truthy
`viewingUserId` → the to-do sub-view; otherwise the roster table. -/
def renderMode (authToken currentUserRole : String)
    (viewingUserId : Option String) : RenderMode :=
  if authToken = "" then .loginPrompt
  else if currentUserRole ≠ "admin" ∧ currentUserRole ≠ "superAdmin"
      ∧ currentUserRole ≠ "manager" then .accessDenied
  else if (match viewingUserId with | some v => v != "" | none => false) = true then .todoView
  else .dashboard

/-- JavaScript `undefined < x` is `false`. -/
theorem jsLt_none_left (x : Option Nat) : jsLt none x = false := by cases x <;> rfl

/-- JavaScript `x < undefined` is `false`. -/
theorem jsLt_none_right (x : Option Nat) : jsLt x none = false := by cases x <;> rfl

/-- JavaScript `undefined <= x` is `false`. -/
theorem jsLe_none_left (x : Option Nat) : jsLe none x = false := by cases x <;> rfl

/-- JavaScript `x <= undefined` is `false`. -/
theorem jsLe_none_right (x : Option Nat) : jsLe x none = false := by cases x <;> rfl

/-- JavaScript `undefined > x` is `false`. -/
theorem jsGt_none_left (x : Option Nat) : jsGt none x = false := by cases x <;> rfl

/-- JavaScript `x > undefined` is `false`. -/
theorem jsGt_none_right (x : Option Nat) : jsGt x none = false := by cases x <;> rfl

/-- A key outside the enumeration has no entry in `ROLE_LEVELS`. -/
theorem ROLE_LEVELS_eq_none_of_not_mem (r : String) (h : r ∉ availableRoles) :
    ROLE_LEVELS r = none := by
  simp only [availableRoles, List.mem_cons, List.not_mem_nil, or_false, not_or] at h
  obtain ⟨h1, h2, h3, h4, h5⟩ := h
  simp [ROLE_LEVELS, h1, h2, h3, h4, h5]

/-- A non-empty string stays non-empty when a string is appended. -/
theorem append_ne_empty_left (a b : String) (ha : a ≠ "") : a ++ b ≠ "" := by
  intro h
  apply ha
  have h2 := congrArg String.data h
  simp [String.data_append] at h2
  exact String.ext h2.1

/-- `x || dflt` in JavaScript is non-empty whenever the default is. -/
theorem jsOrString_ne_empty (x : Option String) (dflt : String) (hd : dflt ≠ "") :
    jsOrString x dflt ≠ "" := by
  cases x with
  | none => exact hd
  | some s =>
    by_cases hs : s = ""
    · simp only [jsOrString, hs, if_pos]
      exact hd
    · simp only [jsOrString, if_neg hs]
      exact hs

/-- Mapping the role-update function over entries none of which has the
matching identifier changes nothing. -/
theorem map_roleUpdate_eq_self (userId newRole : String) (l : List User)
    (h : ∀ v ∈ l, v._id ≠ userId) :
    l.map (fun u => if u._id = userId then { u with role := newRole } else u) = l := by
  induction l with
  | nil => rfl
  | cons a t ih =>
    rw [List.map_cons, if_neg (h a (List.mem_cons_self a t)),
      ih (fun v hv => h v (List.mem_cons_of_mem a hv))]

/-- Filtering out a non-occurring identifier changes nothing. -/
theorem filter_ne_id_eq_self (userId : String) (l : List User)
    (h : ∀ v ∈ l, v._id ≠ userId) :
    l.filter (fun u => u._id != userId) = l := by
  induction l with
  | nil => rfl
  | cons a t ih =>
    have ha : (a._id != userId) = true := by
      simp [h a (List.mem_cons_self a t)]
    rw [List.filter_cons, if_pos ha, ih (fun v hv => h v (List.mem_cons_of_mem a hv))]

/-- Claim C1: over the 25 ordered pairs of enumerated roles, with no
request in flight and the target not the acting user, the role-change
dropdown is disabled exactly when the acting role's level is strictly
lower than the target's; with a request in flight or the target being
the acting user it is always disabled. -/
theorem c1_dropdown_disabled_iff_lower_level
    (r1 r2 : String) (l1 l2 : Nat)
    (h1 : r1 ∈ availableRoles) (h2 : r2 ∈ availableRoles)
    (hl1 : ROLE_LEVELS r1 = some l1) (hl2 : ROLE_LEVELS r2 = some l2) :
    (isDropdownDisabled false false r1 r2 = true ↔ l1 < l2)
    ∧ (∀ c : Bool, isDropdownDisabled true c r1 r2 = true)
    ∧ (∀ b : Bool, isDropdownDisabled b true r1 r2 = true) := by
  simp only [availableRoles, List.mem_cons, List.not_mem_nil, or_false] at h1 h2
  rcases h1 with rfl | rfl | rfl | rfl | rfl <;>
    rcases h2 with rfl | rfl | rfl | rfl | rfl <;>
      (simp [ROLE_LEVELS] at hl1 hl2; subst l1; subst l2; decide)

/-- Witness for C1 at the concrete pair (acting `admin`, target
`moderator`): the dropdown is enabled there since level 2 is not below
level 1. -/
theorem c1_dropdown_disabled_iff_lower_level_witness :
    isDropdownDisabled false false "admin" "moderator" = true ↔ (2 : Nat) < 1 :=
  (c1_dropdown_disabled_iff_lower_level "admin" "moderator" 2 1
    (by decide) (by decide) (by decide) (by decide)).1

/-- Claim C2: over the enumerated role pairs the delete button is
disabled exactly when a request is in flight, or the row is the acting
user, or (acting level ≤ target level and acting is not `superAdmin`),
or (target is `superAdmin` and acting is not `superAdmin`); in
particular for acting `manager` against target `superAdmin` the level
clause does not fire (4 ≤ 3 is false) but the top-tier-target clause
disables delete. -/
theorem c2_delete_disabled_rule :
    (∀ (r1 r2 : String) (l1 l2 : Nat),
      r1 ∈ availableRoles → r2 ∈ availableRoles →
      ROLE_LEVELS r1 = some l1 → ROLE_LEVELS r2 = some l2 →
      (isDeleteDisabled false false r1 r2 = true ↔
        (l1 ≤ l2 ∧ r1 ≠ "superAdmin") ∨ (r2 = "superAdmin" ∧ r1 ≠ "superAdmin"))
      ∧ (∀ c : Bool, isDeleteDisabled true c r1 r2 = true)
      ∧ (∀ b : Bool, isDeleteDisabled b true r1 r2 = true))
    ∧ jsLe (ROLE_LEVELS "manager") (ROLE_LEVELS "superAdmin") = false
    ∧ isDeleteDisabled false false "manager" "superAdmin" = true := by
  refine ⟨?_, by decide, by decide⟩
  intro r1 r2 l1 l2 h1 h2 hl1 hl2
  simp only [availableRoles, List.mem_cons, List.not_mem_nil, or_false] at h1 h2
  rcases h1 with rfl | rfl | rfl | rfl | rfl <;>
    rcases h2 with rfl | rfl | rfl | rfl | rfl <;>
      (simp [ROLE_LEVELS] at hl1 hl2; subst l1; subst l2; decide)

/-- Witness for C2 at the concrete pair (acting `manager`, target
`superAdmin`, levels 4 and 3). -/
theorem c2_delete_disabled_rule_witness :
    isDeleteDisabled false false "manager" "superAdmin" = true ↔
      ((4 : Nat) ≤ 3 ∧ "manager" ≠ "superAdmin")
        ∨ ("superAdmin" = "superAdmin" ∧ "manager" ≠ "superAdmin") :=
  (c2_delete_disabled_rule.1 "manager" "superAdmin" 4 3
    (by decide) (by decide) (by decide) (by decide)).1

/-- Claim C3: for enumerated acting, target, and candidate roles, the
candidate option in the role-change dropdown is disabled exactly when
the candidate's level exceeds the acting user's level, or the target's
current role is `superAdmin` while the acting user's is not; in the
scenario acting `admin`, target `moderator`, the options `user`,
`moderator`, `admin` are enabled and `superAdmin`, `manager` disabled. -/
theorem c3_option_disabled_rule :
    (∀ (acting target cand : String) (la lc : Nat),
      acting ∈ availableRoles → target ∈ availableRoles → cand ∈ availableRoles →
      ROLE_LEVELS acting = some la → ROLE_LEVELS cand = some lc →
      (isOptionDisabled cand acting target = true ↔
        la < lc ∨ (target = "superAdmin" ∧ acting ≠ "superAdmin")))
    ∧ isOptionDisabled "user" "admin" "moderator" = false
    ∧ isOptionDisabled "moderator" "admin" "moderator" = false
    ∧ isOptionDisabled "admin" "admin" "moderator" = false
    ∧ isOptionDisabled "superAdmin" "admin" "moderator" = true
    ∧ isOptionDisabled "manager" "admin" "moderator" = true := by
  refine ⟨?_, by decide, by decide, by decide, by decide, by decide⟩
  intro acting target cand la lc ha ht hc hla hlc
  simp only [availableRoles, List.mem_cons, List.not_mem_nil, or_false] at ha ht hc
  rcases ha with rfl | rfl | rfl | rfl | rfl <;>
    rcases ht with rfl | rfl | rfl | rfl | rfl <;>
      rcases hc with rfl | rfl | rfl | rfl | rfl <;>
        (simp [ROLE_LEVELS] at hla hlc; subst la; subst lc; decide)

/-- Witness for C3 at the concrete triple (acting `admin`, target
`moderator`, candidate `superAdmin`, levels 2 and 3). -/
theorem c3_option_disabled_rule_witness :
    isOptionDisabled "superAdmin" "admin" "moderator" = true ↔
      (2 : Nat) < 3 ∨ ("moderator" = "superAdmin" ∧ "admin" ≠ "superAdmin") :=
  c3_option_disabled_rule.1 "admin" "moderator" "superAdmin" 2 3
    (by decide) (by decide) (by decide) (by decide) (by decide)

/-- Claim C4, counterexample: with a token present and the empty
`currentUserRole` (a string outside {admin, superAdmin, manager}), the
access-denied view is rendered but the mount effect does nothing: no
error message is set, contradicting the claim that one always is. -/
theorem c4_access_denied_counterexample :
    renderMode "token" "" none = RenderMode.accessDenied
    ∧ mountEffect "token" "" = MountAction.noAction
    ∧ mountEffect "token" "" ≠ MountAction.setError
        "You do not have sufficient administrative privileges to view this dashboard." := by
  decide

/-- Claim C4 as amended: with the token present and the role outside
{admin, superAdmin, manager}, the access-denied view is rendered and no
roster fetch is issued; the insufficient-privileges error message is
set when the role is additionally non-empty (truthy), while an empty
role leaves the mount effect doing nothing. -/
theorem c4_access_denied_amended (tok role : String) (v : Option String)
    (htok : tok ≠ "") (h1 : role ≠ "admin") (h2 : role ≠ "superAdmin")
    (h3 : role ≠ "manager") :
    renderMode tok role v = RenderMode.accessDenied
    ∧ mountEffect tok role ≠ MountAction.fetchRoster
    ∧ (role ≠ "" → mountEffect tok role = MountAction.setError
        "You do not have sufficient administrative privileges to view this dashboard.")
    ∧ (role = "" → mountEffect tok role = MountAction.noAction) := by
  refine ⟨by simp [renderMode, htok, h1, h2, h3], ?_, ?_, ?_⟩
  · by_cases hrole : role = "" <;> simp [mountEffect, htok, h1, h2, h3, hrole]
  · intro hrole
    simp [mountEffect, htok, h1, h2, h3, hrole]
  · intro hrole
    simp [mountEffect, h1, h2, h3, hrole]

/-- Witness for the amended C4 at the concrete input (token `"token"`,
role `"user"`): access denied is rendered and the error message set. -/
theorem c4_access_denied_amended_witness :
    renderMode "token" "user" none = RenderMode.accessDenied
    ∧ mountEffect "token" "user" = MountAction.setError
        "You do not have sufficient administrative privileges to view this dashboard." := by
  have h := c4_access_denied_amended "token" "user" none
    (by decide) (by decide) (by decide) (by decide)
  exact ⟨h.1, h.2.2.1 (by decide)⟩

/-- Claim C5: on a roster with pairwise-distinct identifiers containing
the entry `u` with identifier `userId`, a successful role change
rewrites exactly that entry's `role` field to `newRole`, keeps its
other fields and every other entry (and their order) unchanged, and
sets a non-empty success message. -/
theorem c5_change_role_frame
    (s : DashState) (userId email newRole : String) (m : Option String)
    (u : User) (l1 l2 : List User)
    (hp : s.users.Pairwise (fun a b => a._id ≠ b._id))
    (hsplit : s.users = l1 ++ u :: l2)
    (hid : u._id = userId) :
    (handleChangeRole userId email newRole s (.ok m)).users
      = l1 ++ { u with role := newRole } :: l2
    ∧ (handleChangeRole userId email newRole s (.ok m)).message ≠ "" := by
  rw [hsplit, List.pairwise_append] at hp
  obtain ⟨hpl1, hpl2, hcross⟩ := hp
  have hne1 : ∀ v ∈ l1, v._id ≠ userId := by
    intro v hv
    have hvu := hcross v hv u (List.mem_cons_self u l2)
    rwa [hid] at hvu
  have hne2 : ∀ v ∈ l2, v._id ≠ userId := by
    rw [List.pairwise_cons] at hpl2
    intro v hv
    have huv := hpl2.1 v hv
    rw [hid] at huv
    exact huv.symm
  constructor
  · simp only [handleChangeRole, requestBegin]
    rw [hsplit, List.map_append, List.map_cons, if_pos hid,
      map_roleUpdate_eq_self userId newRole l1 hne1,
      map_roleUpdate_eq_self userId newRole l2 hne2]
  · simp only [handleChangeRole, requestBegin]
    exact jsOrString_ne_empty m _
      (append_ne_empty_left _ _ (append_ne_empty_left _ _
        (append_ne_empty_left _ _ (append_ne_empty_left _ _ (by decide)))))

/-- Witness for C5 on a concrete two-user roster: changing the role of
the second user to `admin` rewrites only that entry. -/
theorem c5_change_role_frame_witness :
    (handleChangeRole "2" "b@x" "admin"
        { initialState with
          users := [⟨"1", "A", "a@x", "user"⟩, ⟨"2", "B", "b@x", "moderator"⟩] }
        (.ok none)).users
      = [⟨"1", "A", "a@x", "user"⟩, ⟨"2", "B", "b@x", "admin"⟩]
    ∧ (handleChangeRole "2" "b@x" "admin"
        { initialState with
          users := [⟨"1", "A", "a@x", "user"⟩, ⟨"2", "B", "b@x", "moderator"⟩] }
        (.ok none)).message ≠ "" := by
  have h := c5_change_role_frame
    { initialState with
      users := [⟨"1", "A", "a@x", "user"⟩, ⟨"2", "B", "b@x", "moderator"⟩] }
    "2" "b@x" "admin" none ⟨"2", "B", "b@x", "moderator"⟩
    [⟨"1", "A", "a@x", "user"⟩] [] (by decide) (by decide) (by decide)
  exact ⟨h.1, h.2⟩

/-- Claim C6: on a roster with pairwise-distinct identifiers containing
the entry `u` with identifier `userId`, a confirmed successful delete
removes exactly that entry, preserving the relative order of all
remaining entries (and actually sends the request). -/
theorem c6_delete_frame
    (s : DashState) (userId email : String) (m : Option String)
    (u : User) (l1 l2 : List User)
    (hp : s.users.Pairwise (fun a b => a._id ≠ b._id))
    (hsplit : s.users = l1 ++ u :: l2)
    (hid : u._id = userId) :
    (handleDeleteUser true userId email s (.ok m)).1.users = l1 ++ l2
    ∧ (handleDeleteUser true userId email s (.ok m)).1.message ≠ ""
    ∧ (handleDeleteUser true userId email s (.ok m)).2 = true := by
  rw [hsplit, List.pairwise_append] at hp
  obtain ⟨hpl1, hpl2, hcross⟩ := hp
  have hne1 : ∀ v ∈ l1, v._id ≠ userId := by
    intro v hv
    have hvu := hcross v hv u (List.mem_cons_self u l2)
    rwa [hid] at hvu
  have hne2 : ∀ v ∈ l2, v._id ≠ userId := by
    rw [List.pairwise_cons] at hpl2
    intro v hv
    have huv := hpl2.1 v hv
    rw [hid] at huv
    exact huv.symm
  have hu : (u._id != userId) = false := by simp [hid]
  refine ⟨?_, ?_, rfl⟩
  · simp only [handleDeleteUser, requestBegin, if_pos]
    rw [hsplit, List.filter_append, List.filter_cons, hu]
    simp only [Bool.false_eq_true, if_neg, ite_false]
    rw [filter_ne_id_eq_self userId l1 hne1, filter_ne_id_eq_self userId l2 hne2]
  · simp only [handleDeleteUser, requestBegin, if_pos]
    exact jsOrString_ne_empty m _
      (append_ne_empty_left _ _ (append_ne_empty_left _ _ (by decide)))

/-- Witness for C6 on a concrete three-user roster: deleting the middle
user removes exactly that entry and keeps the order of the rest. -/
theorem c6_delete_frame_witness :
    (handleDeleteUser true "2" "b@x"
        { initialState with
          users := [⟨"1", "A", "a@x", "user"⟩, ⟨"2", "B", "b@x", "moderator"⟩,
            ⟨"3", "C", "c@x", "admin"⟩] }
        (.ok none)).1.users
      = [⟨"1", "A", "a@x", "user"⟩] ++ [⟨"3", "C", "c@x", "admin"⟩]
    ∧ (handleDeleteUser true "2" "b@x"
        { initialState with
          users := [⟨"1", "A", "a@x", "user"⟩, ⟨"2", "B", "b@x", "moderator"⟩,
            ⟨"3", "C", "c@x", "admin"⟩] }
        (.ok none)).1.message ≠ "" := by
  have h := c6_delete_frame
    { initialState with
      users := [⟨"1", "A", "a@x", "user"⟩, ⟨"2", "B", "b@x", "moderator"⟩,
        ⟨"3", "C", "c@x", "admin"⟩] }
    "2" "b@x" none ⟨"2", "B", "b@x", "moderator"⟩
    [⟨"1", "A", "a@x", "user"⟩] [⟨"3", "C", "c@x", "admin"⟩]
    (by decide) (by decide) (by decide)
  exact ⟨h.1, h.2.1⟩

/-- Claim C7: declining the delete confirmation sends no request
(second component `false`) and leaves the entire component state,
including roster, flags, banners, and the viewed-user target,
unchanged — for every state and every would-be network outcome. -/
theorem c7_decline_delete_noop (s : DashState) (userId email : String)
    (r : ApiResult) :
    handleDeleteUser false userId email s r = (s, false) := rfl

/-- Claim C8: every one of the three network handlers clears both
banners (and raises `loading`) before the request, and after it settles
at most one banner is non-empty: a success leaves `error` empty (and
for the two mutating handlers sets a non-empty success message), while
an HTTP or transport failure leaves `message` empty and sets a
non-empty `error`. -/
theorem c8_banner_exclusive :
    (∀ s : DashState,
      (requestBegin s).error = "" ∧ (requestBegin s).message = ""
      ∧ (requestBegin s).loading = true)
    ∧ (∀ (s : DashState) (r : FetchUsersResult),
        (fetchUsers s r).error = "" ∨ (fetchUsers s r).message = "")
    ∧ (∀ (s : DashState) (us : Option (List User)),
        (fetchUsers s (.ok us)).error = "" ∧ (fetchUsers s (.ok us)).message = "")
    ∧ (∀ (s : DashState) (m : Option String),
        (fetchUsers s (.httpError m)).message = ""
        ∧ (fetchUsers s (.httpError m)).error ≠ "")
    ∧ (∀ s : DashState,
        (fetchUsers s .transportError).message = ""
        ∧ (fetchUsers s .transportError).error ≠ "")
    ∧ (∀ (uid em nr : String) (s : DashState) (r : ApiResult),
        (handleChangeRole uid em nr s r).error = ""
        ∨ (handleChangeRole uid em nr s r).message = "")
    ∧ (∀ (uid em nr : String) (s : DashState) (m : Option String),
        (handleChangeRole uid em nr s (.ok m)).error = ""
        ∧ (handleChangeRole uid em nr s (.ok m)).message ≠ "")
    ∧ (∀ (uid em nr : String) (s : DashState) (m : Option String),
        (handleChangeRole uid em nr s (.httpError m)).message = ""
        ∧ (handleChangeRole uid em nr s (.httpError m)).error ≠ "")
    ∧ (∀ (uid em nr : String) (s : DashState),
        (handleChangeRole uid em nr s .transportError).message = ""
        ∧ (handleChangeRole uid em nr s .transportError).error ≠ "")
    ∧ (∀ (uid em : String) (s : DashState) (r : ApiResult),
        (handleDeleteUser true uid em s r).1.error = ""
        ∨ (handleDeleteUser true uid em s r).1.message = "")
    ∧ (∀ (uid em : String) (s : DashState) (m : Option String),
        (handleDeleteUser true uid em s (.ok m)).1.error = ""
        ∧ (handleDeleteUser true uid em s (.ok m)).1.message ≠ "")
    ∧ (∀ (uid em : String) (s : DashState) (m : Option String),
        (handleDeleteUser true uid em s (.httpError m)).1.message = ""
        ∧ (handleDeleteUser true uid em s (.httpError m)).1.error ≠ "")
    ∧ (∀ (uid em : String) (s : DashState),
        (handleDeleteUser true uid em s .transportError).1.message = ""
        ∧ (handleDeleteUser true uid em s .transportError).1.error ≠ "") := by
  refine ⟨fun s => ⟨rfl, rfl, rfl⟩, ?_, fun s us => ⟨rfl, rfl⟩, ?_, ?_, ?_, ?_, ?_, ?_, ?_, ?_, ?_, ?_⟩
  · intro s r
    cases r with
    | ok us => exact Or.inl rfl
    | httpError m => exact Or.inr rfl
    | transportError => exact Or.inr rfl
  · intro s m
    exact ⟨rfl, jsOrString_ne_empty m _ (by decide)⟩
  · intro s
    refine ⟨rfl, ?_⟩
    have he : (fetchUsers s .transportError).error
        = "Network error or server is unreachable while fetching users. Ensure your backend is running." := rfl
    rw [he]
    decide
  · intro uid em nr s r
    cases r with
    | ok m => exact Or.inl rfl
    | httpError m => exact Or.inr rfl
    | transportError => exact Or.inr rfl
  · intro uid em nr s m
    refine ⟨rfl, ?_⟩
    simp only [handleChangeRole, requestBegin]
    exact jsOrString_ne_empty m _
      (append_ne_empty_left _ _ (append_ne_empty_left _ _
        (append_ne_empty_left _ _ (append_ne_empty_left _ _ (by decide)))))
  · intro uid em nr s m
    exact ⟨rfl, jsOrString_ne_empty m _ (by decide)⟩
  · intro uid em nr s
    refine ⟨rfl, ?_⟩
    have he : (handleChangeRole uid em nr s .transportError).error
        = "Network error or server is unreachable while changing role." := rfl
    rw [he]
    decide
  · intro uid em s r
    cases r with
    | ok m => exact Or.inl rfl
    | httpError m => exact Or.inr rfl
    | transportError => exact Or.inr rfl
  · intro uid em s m
    refine ⟨rfl, ?_⟩
    simp only [handleDeleteUser, requestBegin, if_pos]
    exact jsOrString_ne_empty m _
      (append_ne_empty_left _ _ (append_ne_empty_left _ _ (by decide)))
  · intro uid em s m
    exact ⟨rfl, jsOrString_ne_empty m _ (by decide)⟩
  · intro uid em s
    refine ⟨rfl, ?_⟩
    have he : (handleDeleteUser true uid em s .transportError).1.error
        = "Network error or server is unreachable while deleting user." := rfl
    rw [he]
    decide

/-- Claim C9: when the very first `fetchUsers` after mount fails with a
transport error, the roster stays the empty sequence it was initialised
to, the error banner is non-empty, and `loading` ends `false`. -/
theorem c9_initial_fetch_transport_error :
    (fetchUsers initialState .transportError).users = []
    ∧ (fetchUsers initialState .transportError).error ≠ ""
    ∧ (fetchUsers initialState .transportError).loading = false := by
  refine ⟨rfl, by decide, rfl⟩

/-- Claim C10: for an acting role outside the enumeration (the empty
string included) the `ROLE_LEVELS` lookup is absent and every level
comparison involving it is `false`; hence with no request in flight
and the target not the acting user the dropdown is never disabled by
the hierarchy clause, and the delete button is disabled exactly when
the target's role is `superAdmin`. -/
theorem c10_unknown_acting_role (cur target : String)
    (h : cur ∉ availableRoles) :
    ROLE_LEVELS cur = none
    ∧ (∀ x : Option Nat,
        jsLt (ROLE_LEVELS cur) x = false ∧ jsLt x (ROLE_LEVELS cur) = false
        ∧ jsLe (ROLE_LEVELS cur) x = false ∧ jsLe x (ROLE_LEVELS cur) = false
        ∧ jsGt (ROLE_LEVELS cur) x = false ∧ jsGt x (ROLE_LEVELS cur) = false)
    ∧ isDropdownDisabled false false cur target = false
    ∧ isDeleteDisabled false false cur target = (target == "superAdmin") := by
  have hnone : ROLE_LEVELS cur = none := ROLE_LEVELS_eq_none_of_not_mem cur h
  have hsa : cur ≠ "superAdmin" := by
    intro hc
    subst hc
    exact h (by decide)
  refine ⟨hnone, ?_, ?_, ?_⟩
  · intro x
    rw [hnone]
    exact ⟨jsLt_none_left x, jsLt_none_right x, jsLe_none_left x, jsLe_none_right x,
      jsGt_none_left x, jsGt_none_right x⟩
  · simp [isDropdownDisabled, hnone, jsLt_none_left]
  · simp [isDeleteDisabled, hnone, jsLe_none_left, hsa]

/-- Witness for C10 at the concrete acting role `"guest"` (outside the
enumeration) and target `"superAdmin"`. -/
theorem c10_unknown_acting_role_witness :
    ROLE_LEVELS "guest" = none
    ∧ jsLt (ROLE_LEVELS "guest") (some 0) = false
    ∧ isDropdownDisabled false false "guest" "superAdmin" = false
    ∧ isDeleteDisabled false false "guest" "superAdmin" = true := by
  have h := c10_unknown_acting_role "guest" "superAdmin" (by decide)
  exact ⟨h.1, (h.2.1 (some 0)).1, h.2.2.1, by rw [h.2.2.2]; rfl⟩
